import Mathlib

/-!
Shallow embedding of the go-themoviedb library (src/tmdb.go, package tmdb).

The HTTP transport and Go's encoding/json are external collaborators of the
library; they are modelled as oracles: a `FetchOutcome` records, for one
endpoint interaction, either a transport failure of http.Get or the HTTP
status code together with the result json.Unmarshal would produce on the
response body.  Everything downstream of those oracles — the guard logic of
MovieData, the config cache, poster_size, the year truncation, and the JSON
serialisation of the published filtered_output shape — is translated
directly from the Go source.

Go strings are modelled as Lean strings (character level; the source only
manipulates ASCII data in the positions the spec exercises).  A Go runtime
panic (nil-pointer dereference, index out of range, slice bounds) is made
explicit through the `GoOutcome` type.
-/

namespace tmdb

/-- A Go error value as produced by errors.New / fmt.Sprintf: its message. -/
structure GoError where
  msg : String
deriving DecidableEq

/-- Result of running a piece of Go code that may panic at runtime. -/
inductive GoOutcome (α : Type) where
  | ok : α → GoOutcome α
  | panicked : String → GoOutcome α
deriving DecidableEq

/-- One observed interaction with a remote endpoint: either http.Get itself
fails, or a response arrives carrying a status code and the outcome that
json.Unmarshal yields on its body. -/
inductive FetchOutcome (α : Type) where
  | transportErr : GoError → FetchOutcome α
  | response : Int → Except GoError α → FetchOutcome α

/-- Published output shape (struct filtered_output, json tags
title / artwork / year, in declaration order). -/
structure filtered_output where
  Title : String
  Artwork : String
  Release_date : String
deriving DecidableEq

/-- One search result entry (struct tmdbResult). -/
structure tmdbResult where
  Adult : Bool
  Name : String
  Backdrop_path : String
  Id : Int
  Original_name : String
  Original_title : String
  First_air_date : String
  Release_date : String
  Poster_path : String
  Title : String
  Media_type : String
  Profile_path : String
deriving DecidableEq

/-- Response of the search endpoints (struct tmdbResponse). -/
structure tmdbResponse where
  Page : Int
  Results : List tmdbResult
  Total_pages : Int
  Total_results : Int
deriving DecidableEq

/-- Image configuration (struct imageConfig). -/
structure imageConfig where
  Base_url : String
  Secure_base_url : String
  Backdrop_sizes : List String
  Logo_sizes : List String
  Poster_sizes : List String
  Profile_sizes : List String
  Still_sizes : List String
deriving DecidableEq

/-- Response of the configuration endpoint (struct tmdbConfig). -/
structure tmdbConfig where
  Images : imageConfig
deriving DecidableEq

/-- Cast entry (struct tmdbCast). -/
structure tmdbCast where
  Character : String
  Name : String
  Profile_path : String
deriving DecidableEq

/-- Crew entry (struct tmdbCrew). -/
structure tmdbCrew where
  Department : String
  Name : String
  Job : String
  Profile_path : String
deriving DecidableEq

/-- Credits record (struct tmdbCredits). -/
structure tmdbCredits where
  Id : Int
  Cast : List tmdbCast
  Crew : List tmdbCrew
deriving DecidableEq

/-- Merged movie metadata record (struct movieMetadata).  The Config field is
a Go pointer, hence Option: none models the nil pointer. -/
structure movieMetadata where
  Id : Int
  Media_type : String
  Backdrop_path : String
  Poster_path : String
  Credits : tmdbCredits
  Config : Option tmdbConfig
  Imdb_id : String
  Overview : String
  Title : String
  Release_date : String
deriving DecidableEq

/-- Client state (struct TMDb): api key plus the nullable cached config. -/
structure TMDb where
  api_key : String
  config : Option tmdbConfig
deriving DecidableEq

/-- Init returns a client with the given key and a nil config cache. -/
def Init (api_key : String) : TMDb := ⟨api_key, none⟩

/-- Zero value of tmdbResponse. -/
def tmdbResponse.zero : tmdbResponse := ⟨0, [], 0, 0⟩

/-- Zero value of imageConfig. -/
def imageConfig.zero : imageConfig := ⟨"", "", [], [], [], [], []⟩

/-- Zero value of tmdbConfig (Go expression tmdbConfig left brace right brace). -/
def tmdbConfig.zero : tmdbConfig := ⟨imageConfig.zero⟩

/-- Zero value of tmdbCredits. -/
def tmdbCredits.zero : tmdbCredits := ⟨0, [], []⟩

/-- Zero value of movieMetadata; its Config pointer is nil. -/
def movieMetadata.zero : movieMetadata := ⟨0, "", "", "", tmdbCredits.zero, none, "", "", "", ""⟩

/-- The remote service as observed by one run: for each of the eight endpoint
shapes, the interaction outcome (keyed by the query title resp. the media id
string where the URL embeds one), plus the behaviour of json.Marshal on the
merged record (encoding mechanics are an external collaborator; Marshal on
these struct types is deterministic and total in Go, but we keep its Except
shape to mirror the checked error). -/
structure Gateway where
  searchMovieEp : String → FetchOutcome tmdbResponse
  searchMultiEp : String → FetchOutcome tmdbResponse
  searchTvEp : String → FetchOutcome tmdbResponse
  configEp : FetchOutcome tmdbConfig
  movieDetailsEp : String → FetchOutcome movieMetadata
  movieCreditsEp : String → FetchOutcome tmdbCredits
  tvDetailsEp : String → FetchOutcome movieMetadata
  tvCreditsEp : String → FetchOutcome tmdbCredits
  marshalMeta : movieMetadata → Except GoError String

/-- error_status from the source: the non-200 status error message. -/
def error_status (status : Int) : GoError :=
  ⟨"Status Code " ++ toString status ++ " received from TMDb"⟩

/-- Shared body of the eight endpoint functions: check the transport error,
then the status code, then the unmarshal outcome; on any failure return the
zero value paired with the error, mirroring the Go return pattern. -/
def fetch_step {α : Type} (zero : α) (ep : FetchOutcome α) : α × Option GoError :=
  match ep with
  | .transportErr e => (zero, some e)
  | .response status dec =>
    if status ≠ 200 then (zero, some (error_status status))
    else
      match dec with
      | .error e => (zero, some e)
      | .ok v => (v, none)

/-- searchMovie: GET /search/movie?query=media_name. -/
def searchMovie (g : Gateway) (media_name : String) : tmdbResponse × Option GoError :=
  fetch_step tmdbResponse.zero (g.searchMovieEp media_name)

/-- searchTmdbMulti: GET /search/multi?query=media_name. -/
def searchTmdbMulti (g : Gateway) (media_name : String) : tmdbResponse × Option GoError :=
  fetch_step tmdbResponse.zero (g.searchMultiEp media_name)

/-- searchTmdbTv: GET /search/tv?query=media_name. -/
def searchTmdbTv (g : Gateway) (media_name : String) : tmdbResponse × Option GoError :=
  fetch_step tmdbResponse.zero (g.searchTvEp media_name)

/-- getMovieDetails: GET /movie/MediaId. -/
def getMovieDetails (g : Gateway) (MediaId : String) : movieMetadata × Option GoError :=
  fetch_step movieMetadata.zero (g.movieDetailsEp MediaId)

/-- getMovieCredits: GET /movie/MediaId/credits. -/
def getMovieCredits (g : Gateway) (MediaId : String) : tmdbCredits × Option GoError :=
  fetch_step tmdbCredits.zero (g.movieCreditsEp MediaId)

/-- getTmdbTvDetails: GET /tv/MediaId. -/
def getTmdbTvDetails (g : Gateway) (MediaId : String) : movieMetadata × Option GoError :=
  fetch_step movieMetadata.zero (g.tvDetailsEp MediaId)

/-- getTmdbTvCredits: GET /tv/MediaId/credits. -/
def getTmdbTvCredits (g : Gateway) (MediaId : String) : tmdbCredits × Option GoError :=
  fetch_step tmdbCredits.zero (g.tvCreditsEp MediaId)

/-- The fetch branch of getConfig: GET /configuration, store the decoded
config in the client on success; on failure the cache is left untouched and
a zero config is returned with the error. -/
def configFetch (tmdb : TMDb) (g : Gateway) : (tmdbConfig × Option GoError) × TMDb :=
  match g.configEp with
  | .transportErr e => ((tmdbConfig.zero, some e), tmdb)
  | .response status dec =>
    if status ≠ 200 then ((tmdbConfig.zero, some (error_status status)), tmdb)
    else
      match dec with
      | .error e => ((tmdbConfig.zero, some e), tmdb)
      | .ok conf => ((conf, none), { tmdb with config := some conf })

/-- The staleness condition of getConfig: the cached config pointer is nil
or the cached image base URL is empty. -/
def needsConfigFetch (tmdb : TMDb) : Bool :=
  match tmdb.config with
  | none => true
  | some c => c.Images.Base_url == ""

/-- getConfig: read-through single-entry cache over the configuration
endpoint. -/
def getConfig (tmdb : TMDb) (g : Gateway) : (tmdbConfig × Option GoError) × TMDb :=
  match tmdb.config with
  | none => configFetch tmdb g
  | some c => if c.Images.Base_url == "" then configFetch tmdb g else ((c, none), tmdb)

/-- The assembly block of MovieData after disambiguation (lines 155-175 of
the source): details, credits and config fetches in order, merged into one
record whose Id is overwritten with the disambiguated id and whose
Media_type is forced to "movie", then marshalled. -/
def assembleMovie (tmdb : TMDb) (g : Gateway) (movieId : Int) :
    GoOutcome ((String × Option GoError) × TMDb) :=
  match (getMovieDetails g (toString movieId)).2 with
  | some err => .ok (("", some err), tmdb)
  | none =>
    match (getMovieCredits g (toString movieId)).2 with
    | some err => .ok (("", some err), tmdb)
    | none =>
      match (getConfig tmdb g).1.2 with
      | some err => .ok (("", some err), (getConfig tmdb g).2)
      | none =>
        match g.marshalMeta { (getMovieDetails g (toString movieId)).1 with
            Credits := (getMovieCredits g (toString movieId)).1,
            Config := some (getConfig tmdb g).1.1,
            Id := movieId, Media_type := "movie" } with
        | .error err => .ok (("", some err), (getConfig tmdb g).2)
        | .ok s => .ok ((s, none), (getConfig tmdb g).2)

/-- Go panic message of reading index 0 of an empty slice. -/
def indexOutOfRangeMsg : String := "runtime error: index out of range [0] with length 0"

/-- The guard logic of MovieData applied to a successfully decoded search
response: zero-total short circuit, then the index-0 read (a panic when the
Results slice is empty), then the media-kind checks. -/
def movieDataResponse (tmdb : TMDb) (g : Gateway) (results : tmdbResponse) :
    GoOutcome ((String × Option GoError) × TMDb) :=
  if results.Total_results = 0 then .ok (("", some ⟨"No results found at TMDb"⟩), tmdb)
  else
    match results.Results with
    | [] => .panicked indexOutOfRangeMsg
    | r0 :: _ =>
      if r0.Media_type = "person" then
        .ok (("", some ⟨"Metadata for persons not supported"⟩), tmdb)
      else if r0.Media_type = "tv" then
        .ok (("", some ⟨"Metadata for tv not supported inside a call for movie data"⟩), tmdb)
      else assembleMovie tmdb g r0.Id

/-- MovieData: search, guard, assemble; returns the Go pair (metadata
string, error) together with the client state after the call. -/
def MovieData (tmdb : TMDb) (g : Gateway) (media_name : String) :
    GoOutcome ((String × Option GoError) × TMDb) :=
  match (searchMovie g media_name).2 with
  | some err => .ok (("", some err), tmdb)
  | none => movieDataResponse tmdb g (searchMovie g media_name).1

/-- Go panic message of dereferencing a nil pointer. -/
def nilDerefMsg : String := "runtime error: invalid memory address or nil pointer dereference"

/-- Go string slicing s[lo:hi]; panics when the bounds are not
0 ≤ lo ≤ hi ≤ len(s). -/
def goSlice (s : String) (lo hi : Nat) : GoOutcome String :=
  if lo ≤ hi ∧ hi ≤ s.length then .ok (String.mk ((s.data.take hi).drop lo))
  else .panicked "runtime error: slice bounds out of range"

/-- poster_size: "original" on an empty size list, the requested size when
present, the first listed size otherwise.  Dereferences md.Config. -/
def poster_size (md : movieMetadata) (size : String) : GoOutcome String :=
  match md.Config with
  | none => .panicked nilDerefMsg
  | some c =>
    match c.Images.Poster_sizes with
    | [] => .ok "original"
    | first :: rest =>
      if (first :: rest).contains size then .ok size else .ok first

/-- Lowercase hexadecimal digit, as used by Go's JSON encoder. -/
def hexDigitChar (n : Nat) : Char :=
  if n < 10 then Char.ofNat (48 + n) else Char.ofNat (87 + n)

/-- Go encoding/json string escaping for one character (default encoder,
HTML escaping on): quote, backslash, newline, carriage return and tab get
two-character escapes; other control characters and the HTML-relevant
characters get a lowercase \u00xx escape; U+2028 and U+2029 get six
character escapes; everything else passes through. -/
def goJSONEscapeChar (c : Char) : String :=
  if c = '"' then "\\\""
  else if c = '\\' then "\\\\"
  else if c = '\n' then "\\n"
  else if c = '\r' then "\\r"
  else if c = '\t' then "\\t"
  else if c.toNat < 32 ∨ c = '<' ∨ c = '>' ∨ c = '&' then
    "\\u00" ++ String.singleton (hexDigitChar (c.toNat / 16)) ++
      String.singleton (hexDigitChar (c.toNat % 16))
  else if c.toNat = 0x2028 then "\\u2028"
  else if c.toNat = 0x2029 then "\\u2029"
  else String.singleton c

/-- Go json.Marshal of a string value. -/
def marshal_string (s : String) : String :=
  "\"" ++ String.join (s.data.map goJSONEscapeChar) ++ "\""

/-- Go json.Marshal of filtered_output: object with keys title, artwork,
year, in struct declaration order. -/
def marshal_filtered_output (f : filtered_output) : String :=
  "\x7b\"title\":" ++ marshal_string f.Title ++ ",\"artwork\":" ++ marshal_string f.Artwork ++
    ",\"year\":" ++ marshal_string f.Release_date ++ "\x7d"

/-- Lines 337-344 of ToJSON: build the filtered_output record from the
decoded merged record — title verbatim, release date truncated to four
characters when longer than four, artwork concatenated from the config base
URL, the resolved poster size and the poster path.  Dereferences
det.Config (via poster_size and directly). -/
def build_filtered (det : movieMetadata) : GoOutcome filtered_output :=
  match (if det.Release_date.length > 4 then goSlice det.Release_date 0 4
         else .ok det.Release_date) with
  | .panicked m => .panicked m
  | .ok fYear =>
    match poster_size det "w154" with
    | .panicked m => .panicked m
    | .ok size =>
      match det.Config with
      | none => .panicked nilDerefMsg
      | some c => .ok ⟨det.Title, c.Images.Base_url ++ size ++ det.Poster_path, fYear⟩

/-- ToJSON: decode the merged record (json.Unmarshal is an external
collaborator, passed as an oracle), build the filtered record, marshal it.
On a decode error the Go code returns the empty string and the error. -/
def ToJSON (unmarshalMeta : String → Except GoError movieMetadata) (data : String) :
    GoOutcome (String × Option GoError) :=
  match unmarshalMeta data with
  | .error e => .ok ("", some e)
  | .ok det =>
    match build_filtered det with
    | .panicked m => .panicked m
    | .ok f => .ok (marshal_filtered_output f, none)

/-! Concrete fixtures used by the spec's end-to-end scenario and by the
witnesses below. -/

/-- The single search result of the end-to-end scenario. -/
def pulpResult : tmdbResult :=
  { Adult := false, Name := "", Backdrop_path := "", Id := 680, Original_name := "",
    Original_title := "", First_air_date := "", Release_date := "", Poster_path := "",
    Title := "", Media_type := "movie", Profile_path := "" }

/-- Search response of the end-to-end scenario: one result, total 1. -/
def pulpSearchResp : tmdbResponse :=
  { Page := 0, Results := [pulpResult], Total_pages := 0, Total_results := 1 }

/-- Details response of the end-to-end scenario. -/
def pulpDetails : movieMetadata :=
  { movieMetadata.zero with
    Title := "Pulp Fiction", Release_date := "1994-10-14", Poster_path := "/poster.jpg" }

/-- Configuration response of the end-to-end scenario. -/
def pulpConfig : tmdbConfig :=
  ⟨{ imageConfig.zero with Base_url := "http://img/", Poster_sizes := ["w154"] }⟩

/-- The merged record MovieData assembles in the end-to-end scenario. -/
def pulpMerged : movieMetadata :=
  { pulpDetails with
    Credits := tmdbCredits.zero, Config := some pulpConfig, Id := 680, Media_type := "movie" }

/-- Gateway realising the end-to-end scenario of the spec. -/
def pulpGateway : Gateway where
  searchMovieEp := fun _ => .response 200 (.ok pulpSearchResp)
  searchMultiEp := fun _ => .response 200 (.ok tmdbResponse.zero)
  searchTvEp := fun _ => .response 200 (.ok tmdbResponse.zero)
  configEp := .response 200 (.ok pulpConfig)
  movieDetailsEp := fun _ => .response 200 (.ok pulpDetails)
  movieCreditsEp := fun _ => .response 200 (.ok tmdbCredits.zero)
  tvDetailsEp := fun _ => .response 200 (.ok movieMetadata.zero)
  tvCreditsEp := fun _ => .response 200 (.ok tmdbCredits.zero)
  marshalMeta := fun _ => .ok "serialized-merged-record"

/-! Helper lemmas shared by the claim theorems. -/

lemma fetch_step_bad_status {α : Type} (zero : α) (status : Int) (dec : Except GoError α)
    (h : status ≠ 200) :
    fetch_step zero (.response status dec) = (zero, some (error_status status)) := by
  simp [fetch_step, h]

lemma fetch_step_decode_err {α : Type} (zero : α) (e : GoError) :
    fetch_step zero (.response 200 (.error e)) = (zero, some e) := by
  simp [fetch_step]

lemma fetch_step_decode_ok {α : Type} (zero : α) (v : α) :
    fetch_step zero (.response 200 (.ok v)) = (v, none) := by
  simp [fetch_step]

lemma searchMovie_ok (g : Gateway) (name : String) (resp : tmdbResponse)
    (hs : g.searchMovieEp name = .response 200 (.ok resp)) :
    searchMovie g name = (resp, none) := by
  unfold searchMovie
  rw [hs]
  exact fetch_step_decode_ok _ _

lemma getConfig_stale (tmdb : TMDb) (g : Gateway) (h : needsConfigFetch tmdb = true) :
    getConfig tmdb g = configFetch tmdb g := by
  unfold getConfig
  unfold needsConfigFetch at h
  cases hc : tmdb.config with
  | none => rfl
  | some c =>
    rw [hc] at h
    have h2 : (c.Images.Base_url == "") = true := h
    simp only [h2, if_true]

lemma getConfig_cached (tmdb : TMDb) (c : tmdbConfig) (g : Gateway)
    (hc : tmdb.config = some c) (hne : c.Images.Base_url ≠ "") :
    getConfig tmdb g = ((c, none), tmdb) := by
  unfold getConfig
  rw [hc]
  simp [hne]

lemma movieData_eq_response (tmdb : TMDb) (g : Gateway) (name : String) (resp : tmdbResponse)
    (hs : g.searchMovieEp name = .response 200 (.ok resp)) :
    MovieData tmdb g name = movieDataResponse tmdb g resp := by
  unfold MovieData
  rw [searchMovie_ok g name resp hs]

lemma movieDataResponse_assemble (tmdb : TMDb) (g : Gateway) (resp : tmdbResponse)
    (r0 : tmdbResult) (rest : List tmdbResult)
    (hres : resp.Results = r0 :: rest) (hn : resp.Total_results ≠ 0)
    (hp : r0.Media_type ≠ "person") (ht : r0.Media_type ≠ "tv") :
    movieDataResponse tmdb g resp = assembleMovie tmdb g r0.Id := by
  unfold movieDataResponse
  rw [if_neg hn, hres]
  simp only [if_neg hp, if_neg ht]

lemma movieDataResponse_person (tmdb : TMDb) (g : Gateway) (resp : tmdbResponse)
    (r0 : tmdbResult) (rest : List tmdbResult)
    (hres : resp.Results = r0 :: rest) (hn : resp.Total_results ≠ 0)
    (hp : r0.Media_type = "person") :
    movieDataResponse tmdb g resp =
      .ok (("", some ⟨"Metadata for persons not supported"⟩), tmdb) := by
  unfold movieDataResponse
  rw [if_neg hn, hres]
  simp only [if_pos hp]

lemma movieDataResponse_tv (tmdb : TMDb) (g : Gateway) (resp : tmdbResponse)
    (r0 : tmdbResult) (rest : List tmdbResult)
    (hres : resp.Results = r0 :: rest) (hn : resp.Total_results ≠ 0)
    (ht : r0.Media_type = "tv") :
    movieDataResponse tmdb g resp =
      .ok (("", some ⟨"Metadata for tv not supported inside a call for movie data"⟩), tmdb) := by
  have hp : r0.Media_type ≠ "person" := by
    rw [ht]
    decide
  unfold movieDataResponse
  rw [if_neg hn, hres]
  simp only [if_neg hp, if_pos ht]

lemma movieDataResponse_nil (tmdb : TMDb) (g : Gateway) (resp : tmdbResponse)
    (hnil : resp.Results = []) (hn : resp.Total_results ≠ 0) :
    movieDataResponse tmdb g resp = .panicked indexOutOfRangeMsg := by
  unfold movieDataResponse
  rw [if_neg hn, hnil]

lemma assembleMovie_isOk (tmdb : TMDb) (g : Gateway) (movieId : Int) :
    ∃ v, assembleMovie tmdb g movieId = .ok v := by
  unfold assembleMovie
  cases (getMovieDetails g (toString movieId)).2 with
  | some e => exact ⟨_, rfl⟩
  | none =>
    cases (getMovieCredits g (toString movieId)).2 with
    | some e => exact ⟨_, rfl⟩
    | none =>
      cases (getConfig tmdb g).1.2 with
      | some e => exact ⟨_, rfl⟩
      | none =>
        cases g.marshalMeta { (getMovieDetails g (toString movieId)).1 with
            Credits := (getMovieCredits g (toString movieId)).1,
            Config := some (getConfig tmdb g).1.1, Id := movieId, Media_type := "movie" } with
        | error e => exact ⟨_, rfl⟩
        | ok s => exact ⟨_, rfl⟩

lemma assembleMovie_state (tmdb : TMDb) (g : Gateway) (movieId : Int)
    (hcfg : (getConfig tmdb g).2 = tmdb) :
    ∀ r t1, assembleMovie tmdb g movieId = .ok (r, t1) → t1 = tmdb := by
  intro r t1
  unfold assembleMovie
  cases (getMovieDetails g (toString movieId)).2 with
  | some e =>
    intro h
    simp only [GoOutcome.ok.injEq, Prod.mk.injEq] at h
    exact h.2.symm
  | none =>
    cases (getMovieCredits g (toString movieId)).2 with
    | some e =>
      intro h
      simp only [GoOutcome.ok.injEq, Prod.mk.injEq] at h
      exact h.2.symm
    | none =>
      cases (getConfig tmdb g).1.2 with
      | some e =>
        intro h
        simp only [GoOutcome.ok.injEq, Prod.mk.injEq] at h
        rw [← h.2]
        exact hcfg
      | none =>
        cases g.marshalMeta { (getMovieDetails g (toString movieId)).1 with
            Credits := (getMovieCredits g (toString movieId)).1,
            Config := some (getConfig tmdb g).1.1, Id := movieId, Media_type := "movie" } with
        | error e =>
          intro h
          simp only [GoOutcome.ok.injEq, Prod.mk.injEq] at h
          rw [← h.2]
          exact hcfg
        | ok s =>
          intro h
          simp only [GoOutcome.ok.injEq, Prod.mk.injEq] at h
          rw [← h.2]
          exact hcfg

lemma movieDataResponse_state (tmdb : TMDb) (g : Gateway) (results : tmdbResponse)
    (hcfg : (getConfig tmdb g).2 = tmdb) :
    ∀ r t1, movieDataResponse tmdb g results = .ok (r, t1) → t1 = tmdb := by
  intro r t1
  unfold movieDataResponse
  split
  · intro h
    simp only [GoOutcome.ok.injEq, Prod.mk.injEq] at h
    exact h.2.symm
  · cases results.Results with
    | nil =>
      intro h
      exact GoOutcome.noConfusion h
    | cons r0 rest =>
      simp only
      split
      · intro h
        simp only [GoOutcome.ok.injEq, Prod.mk.injEq] at h
        exact h.2.symm
      · split
        · intro h
          simp only [GoOutcome.ok.injEq, Prod.mk.injEq] at h
          exact h.2.symm
        · exact assembleMovie_state tmdb g r0.Id hcfg r t1

lemma movieData_state (tmdb : TMDb) (g : Gateway) (name : String)
    (hcfg : (getConfig tmdb g).2 = tmdb) :
    ∀ r t1, MovieData tmdb g name = .ok (r, t1) → t1 = tmdb := by
  intro r t1
  unfold MovieData
  cases (searchMovie g name).2 with
  | some e =>
    intro h
    simp only [GoOutcome.ok.injEq, Prod.mk.injEq] at h
    exact h.2.symm
  | none => exact movieDataResponse_state tmdb g (searchMovie g name).1 hcfg r t1

lemma poster_size_eq (det : movieMetadata) (c : tmdbConfig) (sz : String)
    (h : det.Config = some c) :
    poster_size det sz =
      match c.Images.Poster_sizes with
      | [] => .ok "original"
      | first :: rest => if (first :: rest).contains sz then .ok sz else .ok first := by
  unfold poster_size
  rw [h]

lemma poster_size_some (det : movieMetadata) (c : tmdbConfig) (sz : String)
    (h : det.Config = some c) :
    ∃ v, poster_size det sz = .ok v := by
  rw [poster_size_eq det c sz h]
  cases c.Images.Poster_sizes with
  | nil => exact ⟨"original", rfl⟩
  | cons first rest =>
    by_cases hc : (first :: rest).contains sz = true
    · refine ⟨sz, ?_⟩
      show (if (first :: rest).contains sz = true then GoOutcome.ok sz
            else GoOutcome.ok first) = GoOutcome.ok sz
      rw [if_pos hc]
    · refine ⟨first, ?_⟩
      show (if (first :: rest).contains sz = true then GoOutcome.ok sz
            else GoOutcome.ok first) = GoOutcome.ok first
      rw [if_neg hc]

lemma goSlice_take4 (s : String) (h : s.length > 4) :
    goSlice s 0 4 = .ok (String.mk (s.data.take 4)) := by
  unfold goSlice
  split
  · rfl
  · rename_i hcond
    exact absurd ⟨by omega, le_of_lt h⟩ hcond

lemma year_step_eq (det : movieMetadata) :
    (if det.Release_date.length > 4 then goSlice det.Release_date 0 4
     else .ok det.Release_date) =
      .ok (if det.Release_date.length > 4 then String.mk (det.Release_date.data.take 4)
           else det.Release_date) := by
  split
  · rename_i hlen
    rw [goSlice_take4 det.Release_date hlen]
  · rfl

lemma build_filtered_some (det : movieMetadata) (c : tmdbConfig) (h : det.Config = some c) :
    ∃ size, poster_size det "w154" = .ok size ∧
      build_filtered det =
        .ok ⟨det.Title, c.Images.Base_url ++ size ++ det.Poster_path,
             if det.Release_date.length > 4 then String.mk (det.Release_date.data.take 4)
             else det.Release_date⟩ := by
  obtain ⟨v, hv⟩ := poster_size_some det c "w154" h
  refine ⟨v, hv, ?_⟩
  unfold build_filtered
  rw [year_step_eq, hv, h]

/-! Claim C2 -/

/-- A record whose attached config lists the literal token "original" as the
first poster size. -/
def originalFirstMd : movieMetadata :=
  { movieMetadata.zero with
    Config := some ⟨{ imageConfig.zero with Poster_sizes := ["original", "w500"] }⟩ }

/-- Claim C2 as frozen is false at this input: with poster-size list
["original", "w500"] and preferred token "w154" the third (fallback) case
applies — the list is non-empty and does not contain the preferred token —
yet poster_size returns the literal "original", contradicting the claim's
parenthetical that the result is never "original" in that case. -/
theorem C2_counterexample :
    (["original", "w500"] : List String).contains "w154" = false ∧
    poster_size originalFirstMd "w154" = GoOutcome.ok "original" := by
  decide

/-- Claim C2 (amended): for a record whose Config is attached, poster_size
returns "original" when the poster-size list is empty, the preferred token
when it occurs anywhere in the list, and otherwise the first element of the
list — which is the literal "original" exactly when that token happens to
be the first entry. -/
theorem C2 (md : movieMetadata) (c : tmdbConfig) (preferred : String)
    (h : md.Config = some c) :
    (c.Images.Poster_sizes = [] → poster_size md preferred = .ok "original") ∧
    (c.Images.Poster_sizes.contains preferred = true →
        poster_size md preferred = .ok preferred) ∧
    (∀ first rest, c.Images.Poster_sizes = first :: rest →
        c.Images.Poster_sizes.contains preferred = false →
        poster_size md preferred = .ok first) := by
  refine ⟨?_, ?_, ?_⟩
  · intro he
    rw [poster_size_eq md c preferred h, he]
  · intro hc
    rw [poster_size_eq md c preferred h]
    cases hps : c.Images.Poster_sizes with
    | nil =>
      rw [hps] at hc
      simp at hc
    | cons first rest =>
      rw [hps] at hc
      show (if (first :: rest).contains preferred = true then GoOutcome.ok preferred
            else GoOutcome.ok first) = GoOutcome.ok preferred
      rw [if_pos hc]
  · intro first rest hps hc
    rw [poster_size_eq md c preferred h, hps]
    rw [hps] at hc
    show (if (first :: rest).contains preferred = true then GoOutcome.ok preferred
          else GoOutcome.ok first) = GoOutcome.ok first
    rw [if_neg (by rw [hc]; decide)]

/-- The spec's fallback example: size list ["w92", "w185"]. -/
def w92Md : movieMetadata :=
  { movieMetadata.zero with
    Config := some ⟨{ imageConfig.zero with Poster_sizes := ["w92", "w185"] }⟩ }

/-- Witness for C2 at the spec's own example: preferred "w154" against
["w92", "w185"] yields the first entry "w92". -/
theorem C2_witness : poster_size w92Md "w154" = GoOutcome.ok "w92" :=
  (C2 w92Md ⟨{ imageConfig.zero with Poster_sizes := ["w92", "w185"] }⟩ "w154" rfl).2.2
    "w92" ["w185"] rfl (by decide)

/-! Claim C3 -/

/-- Claim C3: for every decoded record (with its config attached, as the
assembler guarantees), the published year equals the first four characters
of the release date when its length exceeds four and the release date
unchanged (empty string included) otherwise; the four-character slice is
always in bounds and the transformation never panics. -/
theorem C3 (det : movieMetadata) (c : tmdbConfig) (h : det.Config = some c) :
    (det.Release_date.length > 4 →
        goSlice det.Release_date 0 4 = .ok (String.mk (det.Release_date.data.take 4))) ∧
    (∀ m, build_filtered det ≠ .panicked m) ∧
    (∀ f, build_filtered det = .ok f →
        f.Release_date =
          if det.Release_date.length > 4 then String.mk (det.Release_date.data.take 4)
          else det.Release_date) := by
  obtain ⟨size, hsz, hbf⟩ := build_filtered_some det c h
  refine ⟨fun hlen => goSlice_take4 det.Release_date hlen, ?_, ?_⟩
  · intro m hcontra
    rw [hbf] at hcontra
    exact GoOutcome.noConfusion hcontra
  · intro f hf
    rw [hbf] at hf
    cases hf
    rfl

/-- Witness for C3: the slice of "1994-10-14" taken by ToJSON is "1994". -/
theorem C3_witness : goSlice "1994-10-14" 0 4 = GoOutcome.ok "1994" :=
  ((C3 pulpMerged pulpConfig rfl).1 (by decide)).trans (by decide)

/-! Claim C5 -/

/-- Claim C5: for a decoded search response with nonzero total and a first
result, MovieData inspects only the first result's media kind — "person"
fails with the persons-not-supported error, "tv" fails with the
tv-not-supported error, and any other kind proceeds to assembly keyed by
the first result's id; the results beyond index 0 never matter (the
statement holds for every tail). -/
theorem C5 (tmdb : TMDb) (g : Gateway) (name : String) (resp : tmdbResponse)
    (r0 : tmdbResult) (rest : List tmdbResult)
    (hs : g.searchMovieEp name = .response 200 (.ok resp))
    (hres : resp.Results = r0 :: rest) (hn : resp.Total_results ≠ 0) :
    (r0.Media_type = "person" →
        MovieData tmdb g name =
          .ok (("", some ⟨"Metadata for persons not supported"⟩), tmdb)) ∧
    (r0.Media_type = "tv" →
        MovieData tmdb g name =
          .ok (("", some ⟨"Metadata for tv not supported inside a call for movie data"⟩),
            tmdb)) ∧
    (r0.Media_type ≠ "person" → r0.Media_type ≠ "tv" →
        MovieData tmdb g name = assembleMovie tmdb g r0.Id) := by
  rw [movieData_eq_response tmdb g name resp hs]
  exact ⟨movieDataResponse_person tmdb g resp r0 rest hres hn,
    movieDataResponse_tv tmdb g resp r0 rest hres hn,
    movieDataResponse_assemble tmdb g resp r0 rest hres hn⟩

/-- A search response whose top result is a person. -/
def personResult : tmdbResult := { pulpResult with Media_type := "person" }

/-- Search response whose single (top) result is the person. -/
def personSearchResp : tmdbResponse := { pulpSearchResp with Results := [personResult] }

/-- Gateway whose movie search returns a person as top result. -/
def personGateway : Gateway :=
  { pulpGateway with searchMovieEp := fun _ => .response 200 (.ok personSearchResp) }

/-- Witness for C5: the person branch at a concrete gateway. -/
theorem C5_witness :
    MovieData (Init "k") personGateway "x" =
      .ok (("", some ⟨"Metadata for persons not supported"⟩), Init "k") :=
  (C5 (Init "k") personGateway "x" personSearchResp
      personResult [] rfl rfl (by decide)).1 rfl

/-! Claim C6 -/

/-- Claim C6: a successfully decoded search response with zero total results
makes MovieData fail with the no-results error and leave the client state
unchanged; no further remote interaction happens — any gateway agreeing on
the search endpoint yields the identical outcome. -/
theorem C6 (tmdb : TMDb) (g : Gateway) (name : String) (resp : tmdbResponse)
    (hs : g.searchMovieEp name = .response 200 (.ok resp))
    (h0 : resp.Total_results = 0) :
    MovieData tmdb g name = .ok (("", some ⟨"No results found at TMDb"⟩), tmdb) ∧
    (∀ g2 : Gateway, g2.searchMovieEp name = g.searchMovieEp name →
        MovieData tmdb g2 name = MovieData tmdb g name) := by
  have hmain : ∀ g3 : Gateway,
      g3.searchMovieEp name = FetchOutcome.response 200 (.ok resp) →
      MovieData tmdb g3 name = .ok (("", some ⟨"No results found at TMDb"⟩), tmdb) := by
    intro g3 hs3
    rw [movieData_eq_response tmdb g3 name resp hs3]
    unfold movieDataResponse
    rw [if_pos h0]
  refine ⟨hmain g hs, fun g2 h2 => ?_⟩
  rw [hmain g hs, hmain g2 (h2.trans hs)]

/-- Gateway whose movie search decodes to the zero response (total 0). -/
def zeroResultsGateway : Gateway :=
  { pulpGateway with searchMovieEp := fun _ => .response 200 (.ok tmdbResponse.zero) }

/-- Witness for C6 at a concrete gateway. -/
theorem C6_witness :
    MovieData (Init "k") zeroResultsGateway "nope" =
      .ok (("", some ⟨"No results found at TMDb"⟩), Init "k") :=
  (C6 (Init "k") zeroResultsGateway "nope" tmdbResponse.zero rfl rfl).1

/-! Claim C10 -/

/-- An inconsistent decoded search response: total 1 but an empty Results
sequence. -/
def inconsistentResp : tmdbResponse := { tmdbResponse.zero with Total_results := 1 }

/-- Gateway whose movie search decodes to the inconsistent response. -/
def inconsistentGateway : Gateway :=
  { pulpGateway with searchMovieEp := fun _ => .response 200 (.ok inconsistentResp) }

/-- Claim C10 as frozen is false at this input: a decoded response with
Total_results 1 and empty Results passes the zero-total guard, and the
index-0 read is out of bounds — MovieData panics. -/
theorem C10_counterexample :
    MovieData (Init "k") inconsistentGateway "x" = .panicked indexOutOfRangeMsg := by
  decide

/-- Claim C10 (amended): past the guards, the Results[0] access is in
bounds exactly when the decoded Results sequence is non-empty — with a
first result present MovieData never panics, while a response with nonzero
Total_results and empty Results makes the index-0 read panic (the
Total_results guard does not protect the access). -/
theorem C10 (tmdb : TMDb) (g : Gateway) (name : String) (resp : tmdbResponse)
    (hs : g.searchMovieEp name = .response 200 (.ok resp))
    (hn : resp.Total_results ≠ 0) :
    (resp.Results = [] → MovieData tmdb g name = .panicked indexOutOfRangeMsg) ∧
    (∀ r0 rest, resp.Results = r0 :: rest →
        ∀ m, MovieData tmdb g name ≠ .panicked m) := by
  rw [movieData_eq_response tmdb g name resp hs]
  constructor
  · intro hnil
    exact movieDataResponse_nil tmdb g resp hnil hn
  · intro r0 rest hres m
    by_cases hp : r0.Media_type = "person"
    · rw [movieDataResponse_person tmdb g resp r0 rest hres hn hp]
      exact fun hcon => GoOutcome.noConfusion hcon
    · by_cases ht : r0.Media_type = "tv"
      · rw [movieDataResponse_tv tmdb g resp r0 rest hres hn ht]
        exact fun hcon => GoOutcome.noConfusion hcon
      · rw [movieDataResponse_assemble tmdb g resp r0 rest hres hn hp ht]
        obtain ⟨v, hv⟩ := assembleMovie_isOk tmdb g r0.Id
        rw [hv]
        exact fun hcon => GoOutcome.noConfusion hcon

/-- Witness for C10: with a non-empty Results sequence MovieData does not
panic. -/
theorem C10_witness :
    MovieData (Init "k") pulpGateway "Pulp Fiction" ≠ GoOutcome.panicked "boom" :=
  (C10 (Init "k") pulpGateway "Pulp Fiction" pulpSearchResp rfl
    (by decide)).2 pulpResult [] rfl "boom"

/-! Claim C4 -/

/-- Claim C4: getConfig consults the configuration endpoint exactly when the
cached config is nil or carries an empty image base URL; once a config with
a non-empty base URL is cached, getConfig returns it unchanged for every
gateway — no request is issued — and every MovieData call on such a client
leaves the client state, hence the cache, unchanged. -/
theorem C4 (tmdb : TMDb) (c : tmdbConfig) (hc : tmdb.config = some c)
    (hne : c.Images.Base_url ≠ "") :
    (∀ g : Gateway, getConfig tmdb g = ((c, none), tmdb)) ∧
    (∀ (g : Gateway) (name : String) (r : String × Option GoError) (t1 : TMDb),
        MovieData tmdb g name = .ok (r, t1) → t1 = tmdb) ∧
    (∀ t2 : TMDb, needsConfigFetch t2 = true ↔
        t2.config = none ∨ ∃ c2, t2.config = some c2 ∧ c2.Images.Base_url = "") ∧
    (∀ (t2 : TMDb) (g : Gateway), needsConfigFetch t2 = true →
        getConfig t2 g = configFetch t2 g) := by
  have hcached : ∀ g : Gateway, getConfig tmdb g = ((c, none), tmdb) :=
    fun g => getConfig_cached tmdb c g hc hne
  refine ⟨hcached, ?_, ?_, fun t2 g h => getConfig_stale t2 g h⟩
  · intro g name r t1 h
    exact movieData_state tmdb g name (by rw [hcached g]) r t1 h
  · intro t2
    unfold needsConfigFetch
    cases ht : t2.config with
    | none => simp
    | some c2 =>
      show (c2.Images.Base_url == "") = true ↔
        some c2 = none ∨ ∃ c3, some c2 = some c3 ∧ c3.Images.Base_url = ""
      constructor
      · intro hbeq
        exact Or.inr ⟨c2, rfl, by simpa using hbeq⟩
      · rintro (h | ⟨c3, hc3, hurl⟩)
        · exact Option.noConfusion h
        · cases Option.some.inj hc3
          rw [hurl]
          decide

/-- A client whose cache already holds a config with non-empty base URL. -/
def populatedClient : TMDb := ⟨"k", some pulpConfig⟩

/-- Witness for C4: the populated client answers getConfig from the cache. -/
theorem C4_witness :
    getConfig populatedClient pulpGateway = ((pulpConfig, none), populatedClient) :=
  (C4 populatedClient pulpConfig rfl (by decide)).1 pulpGateway

/-! Claim C7 -/

/-- Claim C7: a non-200 response status makes every endpoint operation fail
with an error whose message embeds the literal numeric status code in the
form "Status Code <code> received from TMDb", whatever the body would have
decoded to. -/
theorem C7 (g : Gateway) (status : Int) (hne : status ≠ 200) (name MediaId : String)
    (tmdb : TMDb) :
    (error_status status).msg =
        "Status Code " ++ toString status ++ " received from TMDb" ∧
    (∀ dec, g.searchMovieEp name = .response status dec →
        searchMovie g name = (tmdbResponse.zero, some (error_status status))) ∧
    (∀ dec, g.searchMultiEp name = .response status dec →
        searchTmdbMulti g name = (tmdbResponse.zero, some (error_status status))) ∧
    (∀ dec, g.searchTvEp name = .response status dec →
        searchTmdbTv g name = (tmdbResponse.zero, some (error_status status))) ∧
    (∀ dec, g.movieDetailsEp MediaId = .response status dec →
        getMovieDetails g MediaId = (movieMetadata.zero, some (error_status status))) ∧
    (∀ dec, g.movieCreditsEp MediaId = .response status dec →
        getMovieCredits g MediaId = (tmdbCredits.zero, some (error_status status))) ∧
    (∀ dec, g.tvDetailsEp MediaId = .response status dec →
        getTmdbTvDetails g MediaId = (movieMetadata.zero, some (error_status status))) ∧
    (∀ dec, g.tvCreditsEp MediaId = .response status dec →
        getTmdbTvCredits g MediaId = (tmdbCredits.zero, some (error_status status))) ∧
    (∀ dec, g.configEp = .response status dec → needsConfigFetch tmdb = true →
        getConfig tmdb g = ((tmdbConfig.zero, some (error_status status)), tmdb)) := by
  refine ⟨rfl, fun dec h => ?_, fun dec h => ?_, fun dec h => ?_, fun dec h => ?_,
    fun dec h => ?_, fun dec h => ?_, fun dec h => ?_, fun dec h hstale => ?_⟩
  · unfold searchMovie
    rw [h]
    exact fetch_step_bad_status _ _ _ hne
  · unfold searchTmdbMulti
    rw [h]
    exact fetch_step_bad_status _ _ _ hne
  · unfold searchTmdbTv
    rw [h]
    exact fetch_step_bad_status _ _ _ hne
  · unfold getMovieDetails
    rw [h]
    exact fetch_step_bad_status _ _ _ hne
  · unfold getMovieCredits
    rw [h]
    exact fetch_step_bad_status _ _ _ hne
  · unfold getTmdbTvDetails
    rw [h]
    exact fetch_step_bad_status _ _ _ hne
  · unfold getTmdbTvCredits
    rw [h]
    exact fetch_step_bad_status _ _ _ hne
  · rw [getConfig_stale tmdb g hstale]
    unfold configFetch
    rw [h]
    simp only [if_pos hne]

/-- Gateway answering the movie search with HTTP status 404. -/
def status404Gateway : Gateway :=
  { pulpGateway with searchMovieEp := fun _ => .response 404 (.ok tmdbResponse.zero) }

/-- Witness for C7: a 404 on the movie search yields the literal message. -/
theorem C7_witness :
    searchMovie status404Gateway "x" =
      (tmdbResponse.zero, some ⟨"Status Code 404 received from TMDb"⟩) :=
  ((C7 status404Gateway 404 (by decide) "x" "y" (Init "k")).2.1 _ rfl).trans (by decide)

/-! Claim C8 -/

/-- Claim C8: at every decode site a body that fails to decode makes the
operation return that error (the zero-valued record appears only as the
discarded first component of the Go pair, never as a success), and any
sub-fetch failure — search, details, credits or config — aborts MovieData
with the error propagated unchanged and no record in the output. -/
theorem C8 (g : Gateway) (name MediaId : String) (tmdb : TMDb) (e : GoError) :
    (g.searchMovieEp name = .response 200 (.error e) →
        searchMovie g name = (tmdbResponse.zero, some e)) ∧
    (g.searchMultiEp name = .response 200 (.error e) →
        searchTmdbMulti g name = (tmdbResponse.zero, some e)) ∧
    (g.searchTvEp name = .response 200 (.error e) →
        searchTmdbTv g name = (tmdbResponse.zero, some e)) ∧
    (g.movieDetailsEp MediaId = .response 200 (.error e) →
        getMovieDetails g MediaId = (movieMetadata.zero, some e)) ∧
    (g.movieCreditsEp MediaId = .response 200 (.error e) →
        getMovieCredits g MediaId = (tmdbCredits.zero, some e)) ∧
    (g.tvDetailsEp MediaId = .response 200 (.error e) →
        getTmdbTvDetails g MediaId = (movieMetadata.zero, some e)) ∧
    (g.tvCreditsEp MediaId = .response 200 (.error e) →
        getTmdbTvCredits g MediaId = (tmdbCredits.zero, some e)) ∧
    (needsConfigFetch tmdb = true → g.configEp = .response 200 (.error e) →
        getConfig tmdb g = ((tmdbConfig.zero, some e), tmdb)) ∧
    ((searchMovie g name).2 = some e →
        MovieData tmdb g name = .ok (("", some e), tmdb)) ∧
    (∀ resp r0 rest, g.searchMovieEp name = .response 200 (.ok resp) →
        resp.Results = r0 :: rest → resp.Total_results ≠ 0 →
        r0.Media_type ≠ "person" → r0.Media_type ≠ "tv" →
        ((getMovieDetails g (toString r0.Id)).2 = some e →
            MovieData tmdb g name = .ok (("", some e), tmdb)) ∧
        ((getMovieDetails g (toString r0.Id)).2 = none →
            (getMovieCredits g (toString r0.Id)).2 = some e →
            MovieData tmdb g name = .ok (("", some e), tmdb)) ∧
        ((getMovieDetails g (toString r0.Id)).2 = none →
            (getMovieCredits g (toString r0.Id)).2 = none →
            (getConfig tmdb g).1.2 = some e →
            MovieData tmdb g name = .ok (("", some e), (getConfig tmdb g).2))) := by
  refine ⟨fun h => ?_, fun h => ?_, fun h => ?_, fun h => ?_, fun h => ?_, fun h => ?_,
    fun h => ?_, fun hstale h => ?_, fun hse => ?_, fun resp r0 rest hs hres hn hp ht => ?_⟩
  · unfold searchMovie
    rw [h]
    exact fetch_step_decode_err _ _
  · unfold searchTmdbMulti
    rw [h]
    exact fetch_step_decode_err _ _
  · unfold searchTmdbTv
    rw [h]
    exact fetch_step_decode_err _ _
  · unfold getMovieDetails
    rw [h]
    exact fetch_step_decode_err _ _
  · unfold getMovieCredits
    rw [h]
    exact fetch_step_decode_err _ _
  · unfold getTmdbTvDetails
    rw [h]
    exact fetch_step_decode_err _ _
  · unfold getTmdbTvCredits
    rw [h]
    exact fetch_step_decode_err _ _
  · rw [getConfig_stale tmdb g hstale]
    unfold configFetch
    rw [h]
    rfl
  · unfold MovieData
    rw [hse]
  · have hassemble : MovieData tmdb g name = assembleMovie tmdb g r0.Id := by
      rw [movieData_eq_response tmdb g name resp hs]
      exact movieDataResponse_assemble tmdb g resp r0 rest hres hn hp ht
    refine ⟨fun hd => ?_, fun hd hcred => ?_, fun hd hcred hcfg => ?_⟩
    · rw [hassemble]
      unfold assembleMovie
      rw [hd]
    · rw [hassemble]
      unfold assembleMovie
      rw [hd, hcred]
    · rw [hassemble]
      unfold assembleMovie
      rw [hd, hcred, hcfg]

/-- Gateway whose movie search body fails to decode. -/
def decodeErrGateway : Gateway :=
  { pulpGateway with searchMovieEp := fun _ => .response 200 (.error ⟨"invalid character"⟩) }

/-- Witness for C8: the search decode error is returned as-is. -/
theorem C8_witness :
    searchMovie decodeErrGateway "x" = (tmdbResponse.zero, some ⟨"invalid character"⟩) :=
  (C8 decodeErrGateway "x" "y" (Init "k") ⟨"invalid character"⟩).1 rfl

/-! Further helper lemmas for ToJSON and the end-to-end pipeline. -/

lemma ToJSON_decoded (unm : String → Except GoError movieMetadata) (data : String)
    (det : movieMetadata) (hd : unm data = .ok det) :
    ToJSON unm data =
      match build_filtered det with
      | .panicked m => .panicked m
      | .ok f => .ok (marshal_filtered_output f, none) := by
  unfold ToJSON
  rw [hd]

lemma configFetch_ok (tmdb : TMDb) (g : Gateway) (conf : tmdbConfig)
    (h : g.configEp = .response 200 (.ok conf)) :
    configFetch tmdb g = ((conf, none), { tmdb with config := some conf }) := by
  unfold configFetch
  rw [h]
  simp

lemma assembleMovie_all_ok (tmdb : TMDb) (g : Gateway) (movieId : Int)
    (d : movieMetadata) (cr : tmdbCredits) (conf : tmdbConfig) (t1 : TMDb) (s : String)
    (hd : getMovieDetails g (toString movieId) = (d, none))
    (hcr : getMovieCredits g (toString movieId) = (cr, none))
    (hcf : getConfig tmdb g = ((conf, none), t1))
    (hm : g.marshalMeta { d with
        Credits := cr, Config := some conf, Id := movieId, Media_type := "movie" } = .ok s) :
    assembleMovie tmdb g movieId = .ok ((s, none), t1) := by
  unfold assembleMovie
  rw [hd, hcr, hcf]
  dsimp only
  rw [hm]

/-! Claim C9 -/

/-- Claim C9 as frozen is false at this input: the empty-object string
decodes successfully to the zero merged record — whose Config pointer is
nil, exactly what Go's json.Unmarshal leaves for an absent config field —
yet ToJSON neither returns a decode error nor a published output: it panics
on the nil-pointer dereference inside poster_size. -/
theorem C9_counterexample :
    (fun _ : String => (Except.ok movieMetadata.zero : Except GoError movieMetadata))
        "\x7b\x7d" = Except.ok movieMetadata.zero ∧
    ToJSON (fun _ => Except.ok movieMetadata.zero) "\x7b\x7d" = .panicked nilDerefMsg :=
  ⟨rfl, by decide⟩

/-- Claim C9 (amended): ToJSON returns the decode error unchanged (never a
zero-valued success) when the input fails to parse, and on every input that
parses to a record with its Config attached it returns the serialized
published output without aborting; an input parsing to a record with a nil
Config panics instead and is excluded. -/
theorem C9 (unm : String → Except GoError movieMetadata) (data : String) :
    (∀ e, unm data = .error e → ToJSON unm data = .ok ("", some e)) ∧
    (∀ det c, unm data = .ok det → det.Config = some c →
        ∀ m, ToJSON unm data ≠ .panicked m) ∧
    (∀ det f, unm data = .ok det → build_filtered det = .ok f →
        ToJSON unm data = .ok (marshal_filtered_output f, none)) := by
  refine ⟨fun e he => ?_, fun det c hd hc m => ?_, fun det f hd hf => ?_⟩
  · unfold ToJSON
    rw [he]
  · rw [ToJSON_decoded unm data det hd]
    obtain ⟨size, hsz, hbf⟩ := build_filtered_some det c hc
    rw [hbf]
    exact fun hcon => GoOutcome.noConfusion hcon
  · rw [ToJSON_decoded unm data det hd, hf]

/-- The published record of the end-to-end scenario. -/
def pulpFiltered : filtered_output :=
  ⟨"Pulp Fiction", "http://img/w154/poster.jpg", "1994"⟩

/-- Witness for C9: a record with attached config is published. -/
theorem C9_witness :
    ToJSON (fun _ => Except.ok pulpMerged) "any" =
      .ok (marshal_filtered_output pulpFiltered, none) :=
  (C9 (fun _ => Except.ok pulpMerged) "any").2.2 pulpMerged pulpFiltered rfl (by decide)

/-! Claim C1 -/

/-- The exact published JSON string of the end-to-end scenario. -/
def pulpPublished : String :=
  "\x7b\"title\":\"Pulp Fiction\",\"artwork\":\"http://img/w154/poster.jpg\",\"year\":\"1994\"\x7d"

/-- Claim C1: with the scenario's search, details, credits and configuration
responses, MovieData succeeds with the marshalled merged record (and caches
the config), and ToJSON on that record produces exactly the published JSON
string.  The marshal and unmarshal oracles are only required to round-trip
the merged record, as Go's encoding/json does. -/
theorem C1 (tmdb : TMDb) (g : Gateway) (s : String)
    (unm : String → Except GoError movieMetadata)
    (hcache : tmdb.config = none)
    (hs : g.searchMovieEp "Pulp Fiction" = .response 200 (.ok pulpSearchResp))
    (hd : g.movieDetailsEp "680" = .response 200 (.ok pulpDetails))
    (hcred : g.movieCreditsEp "680" = .response 200 (.ok tmdbCredits.zero))
    (hconf : g.configEp = .response 200 (.ok pulpConfig))
    (hmar : g.marshalMeta pulpMerged = .ok s)
    (hunm : unm s = .ok pulpMerged) :
    MovieData tmdb g "Pulp Fiction" =
      .ok ((s, none), { tmdb with config := some pulpConfig }) ∧
    ToJSON unm s = .ok (pulpPublished, none) := by
  constructor
  · have hid : toString pulpResult.Id = "680" := by decide
    have hdet : getMovieDetails g (toString pulpResult.Id) = (pulpDetails, none) := by
      rw [hid]
      unfold getMovieDetails
      rw [hd]
      exact fetch_step_decode_ok _ _
    have hcr : getMovieCredits g (toString pulpResult.Id) = (tmdbCredits.zero, none) := by
      rw [hid]
      unfold getMovieCredits
      rw [hcred]
      exact fetch_step_decode_ok _ _
    have hgc : getConfig tmdb g = ((pulpConfig, none), { tmdb with config := some pulpConfig }) := by
      unfold getConfig
      rw [hcache]
      exact configFetch_ok tmdb g pulpConfig hconf
    have hm2 : g.marshalMeta { pulpDetails with
        Credits := tmdbCredits.zero, Config := some pulpConfig, Id := pulpResult.Id,
        Media_type := "movie" } = .ok s := hmar
    rw [movieData_eq_response tmdb g "Pulp Fiction" pulpSearchResp hs,
      movieDataResponse_assemble tmdb g pulpSearchResp pulpResult [] rfl (by decide)
        (by decide) (by decide)]
    exact assembleMovie_all_ok tmdb g pulpResult.Id pulpDetails tmdbCredits.zero pulpConfig
      _ s hdet hcr hgc hm2
  · rw [ToJSON_decoded unm s pulpMerged hunm]
    have hbf : build_filtered pulpMerged = .ok pulpFiltered := by decide
    rw [hbf]
    decide

/-- Witness for C1 at the concrete scenario gateway and fresh client. -/
theorem C1_witness :
    MovieData (Init "k") pulpGateway "Pulp Fiction" =
      .ok (("serialized-merged-record", none), ⟨"k", some pulpConfig⟩) ∧
    ToJSON (fun _ => Except.ok pulpMerged) "serialized-merged-record" =
      .ok (pulpPublished, none) :=
  C1 (Init "k") pulpGateway "serialized-merged-record" (fun _ => Except.ok pulpMerged)
    rfl rfl rfl rfl rfl rfl rfl

end tmdb
